import Mathlib

/-!
Shallow embedding of the gst-udpjson_meta core: the UDP listener's per-datagram
step, the generic JSON envelope extractor (`udpjson_parse_and_cache`), the
correlation cache (`udpjson_cache_update` and the lookup performed by
`gst_udpjson_meta_transform_ip`), and the C-UAV structured protocol decoder
(`cuav_parser_parse` and its field coercions).

Machine integers are modelled as `Nat`/`Int` with explicit `% 2^w` where the C
code wraps; `gdouble`/`gfloat` are modelled as exact rationals (`ℚ`), which is
faithful on values that the relevant floating formats represent exactly (the
claims are evaluated on such values).  JSON input is modelled after what
`json_parser_load_from_data` can produce: null, boolean, int64, double, string,
array, object.  The `G_TYPE_FLOAT` / `G_TYPE_INT` / `G_TYPE_UINT64` branches of
the C coercion helpers are unreachable for parser-produced nodes (json-glib
stores wire numbers as int64 or double only) and are therefore not separate
constructors here.
-/

/-- The modulus of guint64 arithmetic, 2^64, as a numeral. -/
def two64 : Nat := 18446744073709551616

/-- The modulus of guint (32-bit) arithmetic, 2^32, as a numeral. -/
def two32 : Nat := 4294967296

/-- JSON values as produced by `json_parser_load_from_data`. -/
inductive JsonValue where
  | jnull
  | jbool (b : Bool)
  | jint (n : Int)
  | jdouble (q : ℚ)
  | jstring (s : String)
  | jarray (items : List JsonValue)
  | jobject (members : List (String × JsonValue))

/-- A JsonObject is its member list in wire order. -/
abbrev JsonObject := List (String × JsonValue)

/-- Models `json_object_get_member`: json-glib stores members in a hash table
where a later duplicate key overwrites an earlier one, so the last binding in
wire order wins. -/
def json_object_get_member (o : JsonObject) (k : String) : Option JsonValue :=
  match o with
  | [] => none
  | (k1, v) :: rest =>
    match json_object_get_member rest k with
    | some r => some r
    | none => if k1 = k then some v else none

/-- Models `json_object_has_member`. -/
def json_object_has_member (o : JsonObject) (k : String) : Bool :=
  (json_object_get_member o k).isSome

/-- Whether a JsonValue is an object (`JSON_NODE_HOLDS_OBJECT`). -/
def JsonValue.isObject : JsonValue → Bool
  | .jobject _ => true
  | _ => false

/-- Numeric value of `c` as an ASCII decimal digit. -/
def ascii_digit_val (c : Char) : Nat := c.toNat - 48

/-- Accumulates the value of a maximal run of leading decimal digits. -/
def ascii_digits_val : List Char → Nat → Nat
  | [], acc => acc
  | c :: cs, acc =>
    if c.isDigit then ascii_digits_val cs (acc * 10 + ascii_digit_val c) else acc

/-- Digit-run value clamped at G_MAXUINT64, as `strtoull` clamps on overflow. -/
def strtoull_core (cs : List Char) : Nat :=
  min (ascii_digits_val cs 0) (two64 - 1)

/-- Models `g_ascii_strtoull(s, NULL, 10)`: skip whitespace, optional sign
(a minus sign negates modulo 2^64), longest digit run, clamp on overflow.
Returns 0 when no digits are present. -/
def g_ascii_strtoull (s : String) : Nat :=
  match s.data.dropWhile Char.isWhitespace with
  | '+' :: rest => strtoull_core rest
  | '-' :: rest => (two64 - strtoull_core rest) % two64
  | rest => strtoull_core rest

/-- Digit-run value clamped at G_MAXINT64 for the non-negative branch. -/
def strtoll_pos_core (cs : List Char) : Int :=
  Int.ofNat (min (ascii_digits_val cs 0) 9223372036854775807)

/-- Models `g_ascii_strtoll(s, NULL, 10)`: like `strtoull` but signed, clamping
at G_MININT64 / G_MAXINT64. -/
def g_ascii_strtoll (s : String) : Int :=
  match s.data.dropWhile Char.isWhitespace with
  | '+' :: rest => strtoll_pos_core rest
  | '-' :: rest => -(Int.ofNat (min (ascii_digits_val rest 0) 9223372036854775808))
  | rest => strtoll_pos_core rest

/-- Splits a maximal run of leading decimal digits from the rest. -/
def take_digits : List Char → List Char × List Char
  | [] => ([], [])
  | c :: cs =>
    if c.isDigit then
      let p := take_digits cs
      (c :: p.1, p.2)
    else ([], c :: cs)

/-- Applies a decimal exponent suffix (after `e`/`E`) to a parsed mantissa. -/
def strtod_apply_exp (base : ℚ) (cs : List Char) : ℚ :=
  match cs with
  | '+' :: rest => base * (10 : ℚ) ^ (ascii_digits_val rest 0)
  | '-' :: rest => base / (10 : ℚ) ^ (ascii_digits_val rest 0)
  | rest => base * (10 : ℚ) ^ (ascii_digits_val rest 0)

/-- Unsigned part of a decimal floating literal: integer digits, optional
fraction, optional exponent. -/
def strtod_unsigned (cs : List Char) : ℚ :=
  let p1 := take_digits cs
  let intval : ℚ := (ascii_digits_val p1.1 0 : Nat)
  match p1.2 with
  | '.' :: cs2 =>
    let p2 := take_digits cs2
    let base := intval + ((ascii_digits_val p2.1 0 : Nat) : ℚ) / (10 : ℚ) ^ p2.1.length
    (match p2.2 with
     | 'e' :: cs3 => strtod_apply_exp base cs3
     | 'E' :: cs3 => strtod_apply_exp base cs3
     | _ => base)
  | 'e' :: cs3 => strtod_apply_exp intval cs3
  | 'E' :: cs3 => strtod_apply_exp intval cs3
  | _ => intval

/-- Models `g_ascii_strtod` on plain decimal literals (the hex / inf / nan
forms it also accepts are irrelevant to the claims): the exact rational value
of the literal. -/
def g_ascii_strtod (s : String) : ℚ :=
  match s.data.dropWhile Char.isWhitespace with
  | '+' :: rest => strtod_unsigned rest
  | '-' :: rest => -(strtod_unsigned rest)
  | rest => strtod_unsigned rest

/-- C conversion of a gint64 value to guint64: reduction modulo 2^64. -/
def int64_to_uint64 (v : Int) : Nat := ((v % (two64 : Int)).toNat)

/-- C cast of a double to guint64: truncation toward zero; conversion of an
out-of-range value is undefined behaviour in C and is modelled here as
wraparound of the truncated integer. -/
def double_to_uint64 (q : ℚ) : Nat :=
  (((q.num.tdiv (q.den : Int)) % (two64 : Int)).toNat)

/-- C cast of an int64 to gint16: wraparound into [-2^15, 2^15). -/
def wrap_int16 (v : Int) : Int := ((v + 32768) % 65536) - 32768

/-- Models `udpjson_parse_uint64` (the extractor's id coercion): accepts a
JSON string (via `g_ascii_strtoull`), an int64 (cast to guint64) or a double
(cast to guint64); every other node kind fails.  The `G_TYPE_UINT64` branch of
the C function is unreachable for parser-produced nodes. -/
def udpjson_parse_uint64 (node : JsonValue) : Option Nat :=
  match node with
  | .jstring s => some (g_ascii_strtoull s)
  | .jint v => some (int64_to_uint64 v)
  | .jdouble q => some (double_to_uint64 q)
  | _ => none

/-- Models `cuav_parse_double`: double, int64 or string members are accepted
(string via `g_ascii_strtod`); anything else fails and the caller keeps the
zero default. -/
def cuav_parse_double (obj : JsonObject) (name : String) : Option ℚ :=
  match json_object_get_member obj name with
  | some (.jdouble q) => some q
  | some (.jint v) => some ((v : ℚ))
  | some (.jstring s) => some (g_ascii_strtod s)
  | _ => none

/-- Models `cuav_parse_float`: `cuav_parse_double` followed by the C cast to
gfloat, which is exact (identity) on float-representable values; the model
keeps the rational unchanged. -/
def cuav_parse_float (obj : JsonObject) (name : String) : Option ℚ :=
  cuav_parse_double obj name

/-- Models `cuav_parse_uint16`: int64 members are clamped below at 0 and cast
to guint16; string members go through `g_ascii_strtoull` then the guint16 cast.
There is no double branch in the C function, so a double member fails. -/
def cuav_parse_uint16 (obj : JsonObject) (name : String) : Option Nat :=
  match json_object_get_member obj name with
  | some (.jint v) => some ((if 0 < v then v else 0).toNat % 65536)
  | some (.jstring s) => some (g_ascii_strtoull s % 65536)
  | _ => none

/-- Models `cuav_parse_uint8`: `cuav_parse_uint16` followed by the cast to
guint8. -/
def cuav_parse_uint8 (obj : JsonObject) (name : String) : Option Nat :=
  (cuav_parse_uint16 obj name).map (fun v => v % 256)

/-- Models `cuav_parse_int16`: int64 members are cast to gint16 (wraparound);
string members go through `g_ascii_strtoll` then the gint16 cast.  No double
branch. -/
def cuav_parse_int16 (obj : JsonObject) (name : String) : Option Int :=
  match json_object_get_member obj name with
  | some (.jint v) => some (wrap_int16 v)
  | some (.jstring s) => some (wrap_int16 (g_ascii_strtoll s))
  | _ => none

/-- Models `cuav_parse_uint32`: the int64 member is first converted to guint64
(so a negative value becomes huge and passes the unsigned `> 0` test), then
cast to guint32; string members go through `g_ascii_strtoull` then the guint32
cast.  No double branch. -/
def cuav_parse_uint32 (obj : JsonObject) (name : String) : Option Nat :=
  match json_object_get_member obj name with
  | some (.jint v) =>
    some ((if 0 < int64_to_uint64 v then int64_to_uint64 v else 0) % two32)
  | some (.jstring s) => some (g_ascii_strtoull s % two32)
  | _ => none

/-- Prints an int64 as `g_strdup_printf("%ld", v)` does. -/
def int64_repr (v : Int) : String := toString v

/-- Pads a digit string on the left with zeros to length `k`. -/
def pad_left_zeros (k : Nat) (s : String) : String :=
  String.mk (List.replicate (k - s.length) '0') ++ s

/-- Models `g_strdup_printf("%f", q)`: sign, integer part, then exactly six
fraction digits.  Rounding of the seventh decimal is modelled as
half-away-from-zero; an exact decimal tie at that position is not
representable in binary floating point, so the model agrees with printf on
double-representable inputs. -/
def printf_f (q : ℚ) : String :=
  let sign := if q < 0 then "-" else ""
  let a : ℚ := |q|
  let scaled : Nat := (a * 1000000 + 1 / 2).floor.toNat
  sign ++ toString (scaled / 1000000) ++ "." ++ pad_left_zeros 6 (toString (scaled % 1000000))

/-- Smallest number of decimal fraction digits (up to the fuel) after which
`q` scaled by that power of ten is an integer. -/
def dec_frac_len : ℚ → Nat → Nat
  | _, 0 => 0
  | q, fuel + 1 => if q.den = 1 then 0 else 1 + dec_frac_len (q * 10) fuel

/-- Decimal rendering of a double value used by the json-glib generator
(`g_ascii_dtostr`, with json-glib ensuring a decimal point on integral
values): exact finite decimal expansion, which exists for every
double-representable value. -/
def json_double_repr (q : ℚ) : String :=
  let sign := if q < 0 then "-" else ""
  let a : ℚ := |q|
  let k := dec_frac_len a 1100
  if k = 0 then sign ++ toString a.num.toNat ++ ".0"
  else
    let scaled := (a * (10 : ℚ) ^ k).num.toNat
    sign ++ toString (scaled / 10 ^ k) ++ "." ++
      pad_left_zeros k (toString (scaled % 10 ^ k))

/-- Hexadecimal digit character. -/
def hex_digit (n : Nat) : Char :=
  if n < 10 then Char.ofNat (48 + n) else Char.ofNat (87 + n)

/-- Four-digit lowercase hexadecimal rendering for \u escapes. -/
def hex4 (n : Nat) : String :=
  String.mk [hex_digit (n / 4096 % 16), hex_digit (n / 256 % 16),
             hex_digit (n / 16 % 16), hex_digit (n % 16)]

/-- JSON escaping of one character for serialization. -/
def json_escape_char (c : Char) : String :=
  if c = '"' then "\\\""
  else if c = '\\' then "\\\\"
  else if c = '\n' then "\\n"
  else if c = '\t' then "\\t"
  else if c = '\r' then "\\r"
  else if c = '\x08' then "\\b"
  else if c = '\x0c' then "\\f"
  else if c.toNat < 32 then "\\u" ++ hex4 c.toNat
  else String.singleton c

/-- JSON escaping of a string body (quotes added by the serializer). -/
def json_escape_string (s : String) : String :=
  String.join (s.data.map json_escape_char)

mutual

/-- Models `json_to_string(node, FALSE)`: compact (no whitespace) JSON
serialization, members in stored order. -/
def json_to_string : JsonValue → String
  | .jnull => "null"
  | .jbool b => if b then "true" else "false"
  | .jint v => int64_repr v
  | .jdouble q => json_double_repr q
  | .jstring s => "\"" ++ json_escape_string s ++ "\""
  | .jarray items => "[" ++ json_items_to_string items ++ "]"
  | .jobject members => "\x7b" ++ json_members_to_string members ++ "\x7d"

/-- Comma-separated serialization of array items. -/
def json_items_to_string : List JsonValue → String
  | [] => ""
  | [x] => json_to_string x
  | x :: y :: rest => json_to_string x ++ "," ++ json_items_to_string (y :: rest)

/-- Comma-separated serialization of object members. -/
def json_members_to_string : List (String × JsonValue) → String
  | [] => ""
  | [(k, v)] => "\"" ++ json_escape_string k ++ "\":" ++ json_to_string v
  | (k, v) :: m :: rest =>
    "\"" ++ json_escape_string k ++ "\":" ++ json_to_string v ++ "," ++
      json_members_to_string (m :: rest)

end

/-- Models `udpjson_node_to_string`: non-value nodes (null, array, object) are
serialized back to compact JSON; string values pass through unescaped; int64,
double and boolean values are formatted (`%ld`, `%f`, `true`/`false`).  The
`G_TYPE_UINT64` branch and the trailing fallback of the C function are
unreachable for parser-produced nodes. -/
def udpjson_node_to_string (node : JsonValue) : String :=
  match node with
  | .jstring s => s
  | .jint v => int64_repr v
  | .jdouble q => printf_f q
  | .jbool b => if b then "true" else "false"
  | other => json_to_string other

/-- Models `UdpJsonCacheKey`: `source_id` is a guint (32-bit) and `object_id`
a guint64; equality is componentwise (`udpjson_cache_key_equal`). -/
structure UdpJsonCacheKey where
  source_id : Nat
  object_id : Nat
deriving DecidableEq

/-- Models `UdpJsonCacheValue`: the stored value string and the monotonic
receipt timestamp in microseconds. -/
structure UdpJsonCacheValue where
  value : String
  recv_ts_us : Nat
deriving DecidableEq

/-- The cache hash table, modelled as an association list; the code only ever
inserts through `cache_replace`, so keys stay pairwise distinct. -/
abbrev UdpJsonCache := List (UdpJsonCacheKey × UdpJsonCacheValue)

/-- Models `g_hash_table_size`: the number of distinct keys. -/
def cache_size (c : UdpJsonCache) : Nat := (c.map Prod.fst).dedup.length

/-- Models `g_hash_table_replace`: any existing entry for the key is removed
and the new binding inserted. -/
def cache_replace (c : UdpJsonCache) (k : UdpJsonCacheKey) (v : UdpJsonCacheValue) :
    UdpJsonCache :=
  (k, v) :: c.filter (fun e => decide (e.1 ≠ k))

/-- Models `g_hash_table_lookup` with `udpjson_cache_key_equal`. -/
def cache_find (c : UdpJsonCache) (k : UdpJsonCacheKey) : Option UdpJsonCacheValue :=
  match c with
  | [] => none
  | e :: rest => if e.1 = k then some e.2 else cache_find rest k

/-- Models `udpjson_cache_update`: under the writer lock, if
`max_cache_size > 0` and the current size reaches it, the whole table is
cleared (`g_hash_table_remove_all`); then the entry for the key is
inserted/replaced with the value and the current monotonic time (taken here as
the `now_us` argument). -/
def udpjson_cache_update (max_cache_size : Nat) (c : UdpJsonCache)
    (source_id object_id : Nat) (value : String) (now_us : Nat) : UdpJsonCache :=
  let c1 := if 0 < max_cache_size ∧ max_cache_size ≤ cache_size c then [] else c
  cache_replace c1 ⟨source_id, object_id⟩ ⟨value, now_us⟩

/-- Models the per-object cache read performed by
`gst_udpjson_meta_transform_ip` under the reader lock: absent key gives no
value; with `cache_ttl_ms > 0`, an entry whose age in milliseconds
(guint64 subtraction, then division by 1000) exceeds the TTL gives no value
and is left in place; otherwise the stored value and timestamp are returned. -/
def udpjson_cache_lookup (c : UdpJsonCache) (source_id object_id : Nat)
    (now_us cache_ttl_ms : Nat) : Option UdpJsonCacheValue :=
  match cache_find c ⟨source_id, object_id⟩ with
  | none => none
  | some v =>
    if 0 < cache_ttl_ms ∧ cache_ttl_ms < ((now_us + two64 - v.recv_ts_us) % two64) / 1000
    then none
    else some v

/-- The three configured field names of the envelope extractor
(`json-key`, `object-id-key`, `source-id-key`). -/
structure ExtractorConfig where
  json_key : String
  object_id_key : String
  source_id_key : String

/-- The `source_id64` value computed by `udpjson_parse_and_cache`: the coerced
source-id member, or 0 when the member is absent or uncoercible. -/
def udpjson_source_id64 (cfg : ExtractorConfig) (obj : JsonObject) : Nat :=
  match json_object_get_member obj cfg.source_id_key with
  | some src_id_node => (udpjson_parse_uint64 src_id_node).getD 0
  | none => 0

/-- Models `udpjson_parse_and_cache` after JSON parsing: `input = none` stands
for a `json_parser_load_from_data` failure.  A non-object root, a missing
object-id or value member, or an uncoercible object-id discards the datagram
(the cache is returned unchanged and no error is raised — the C function just
returns).  A missing or uncoercible source-id leaves `source_id64 = 0`.  The
accepted triple is written through `udpjson_cache_update` with the source id
cast to guint (mod 2^32). -/
def udpjson_parse_and_cache (cfg : ExtractorConfig) (max_cache_size : Nat)
    (c : UdpJsonCache) (input : Option JsonValue) (now_us : Nat) : UdpJsonCache :=
  match input with
  | none => c
  | some root =>
    match root with
    | .jobject obj =>
      match json_object_get_member obj cfg.object_id_key,
            json_object_get_member obj cfg.json_key with
      | some obj_id_node, some val_node =>
        match udpjson_parse_uint64 obj_id_node with
        | none => c
        | some object_id =>
          udpjson_cache_update max_cache_size c (udpjson_source_id64 cfg obj % two32)
            object_id (udpjson_node_to_string val_node) now_us
      | _, _ => c
    | _ => c

/-- One decode invocation made by the listener loop on a received datagram:
`extractor` stands for the inline `udpjson_parse_and_cache` call and `decoder`
would stand for an inline `cuav_parser_parse` call, each carrying the bytes
handed over. -/
inductive ListenerCall where
  | extractor (payload : List Nat)
  | decoder (payload : List Nat)
deriving DecidableEq

/-- Whether a listener call is a protocol-decoder invocation. -/
def ListenerCall.isDecoderCall : ListenerCall → Bool
  | .decoder _ => true
  | _ => false

/-- Models the body of `udpjson_recv_thread` for one readable event: one
`recvfrom` into the 8192-byte buffer reads at most 8191 bytes of the datagram,
a non-positive length is skipped, the buffer is null-terminated, and the read
bytes are handed to `udpjson_parse_and_cache` — the only decode invocation in
the loop. -/
def udpjson_recv_step (datagram : List Nat) : List ListenerCall :=
  if datagram.length = 0 then []
  else [ListenerCall.extractor (datagram.take 8191)]

/-- Models `CUAVCommonHeader`.  `msg_sn` is declared guint32 in C but is
filled through `cuav_parse_uint16` via a `(guint16 *)` cast into the
zero-initialised field, so it carries the parsed 16-bit value. -/
structure CUAVCommonHeader where
  msg_id : Nat
  msg_sn : Nat
  msg_type : Nat
  tx_sys_id : Nat
  tx_dev_type : Nat
  tx_dev_id : Nat
  tx_subdev_id : Nat
  rx_sys_id : Nat
  rx_dev_type : Nat
  rx_dev_id : Nat
  rx_subdev_id : Nat
  yr : Nat
  mo : Nat
  dy : Nat
  h : Nat
  min : Nat
  sec : Nat
  msec : ℚ
  cont_type : Nat
  cont_sum : Nat
  recv_ts_us : Nat
deriving DecidableEq

/-- Models `CUAVGuidanceInfo`. -/
structure CUAVGuidanceInfo where
  yr : Nat
  mo : Nat
  dy : Nat
  h : Nat
  min : Nat
  sec : Nat
  msec : ℚ
  tar_id : Nat
  tar_category : Nat
  guid_stat : Nat
  ecef_x : ℚ
  ecef_y : ℚ
  ecef_z : ℚ
  ecef_vx : ℚ
  ecef_vy : ℚ
  ecef_vz : ℚ
  h_dvi_pct : ℚ
  v_dvi_pct : ℚ
  enu_r : ℚ
  enu_a : ℚ
  enu_e : ℚ
  enu_v : ℚ
  enu_h : ℚ
  lon : ℚ
  lat : ℚ
  alt : ℚ
deriving DecidableEq

/-- Models `CUAVEOSystemParam`. -/
structure CUAVEOSystemParam where
  sv_stat : Nat
  sv_err : Nat
  st_mode_h : Nat
  st_mode_v : Nat
  st_loc_h : ℚ
  st_loc_v : ℚ
  pt_stat : Nat
  pt_err : Nat
  pt_focal : ℚ
  pt_focus : Nat
  pt_fov_h : ℚ
  pt_fov_v : ℚ
  ir_stat : Nat
  ir_err : Nat
  ir_focal : ℚ
  ir_focus : Nat
  ir_fov_h : ℚ
  ir_fov_v : ℚ
  dm_stat : Nat
  dm_err : Nat
  dm_dev : Nat
  trk_dev : Nat
  pt_trk_link : Nat
  ir_trk_link : Nat
  trk_str : Nat
  trk_mod : Nat
  det_trk : Nat
  trk_stat : Nat
  pt_zoom : Nat
  ir_zoom : Nat
  pt_focus_mode : Nat
  ir_focus_mode : Nat
deriving DecidableEq

/-- Models `CUAVServoControl`. -/
structure CUAVServoControl where
  dev_id : Nat
  dev_en : Nat
  ctrl_en : Nat
  mode_h : Nat
  mode_v : Nat
  speed_en_h : Nat
  speed_h : Nat
  speed_en_v : Nat
  speed_v : Nat
  loc_en_h : Nat
  loc_h : ℚ
  loc_en_v : Nat
  loc_v : ℚ
  offset_en : Nat
  offset_h : Int
  offset_v : Int
deriving DecidableEq

/-- A guint16 field extracted into a zeroed record: parse failure keeps 0. -/
def cuav_field_u16 (o : JsonObject) (n : String) : Nat :=
  (cuav_parse_uint16 o n).getD 0

/-- A guint8 field extracted into a zeroed record: parse failure keeps 0. -/
def cuav_field_u8 (o : JsonObject) (n : String) : Nat :=
  (cuav_parse_uint8 o n).getD 0

/-- A guint32 field extracted into a zeroed record: parse failure keeps 0. -/
def cuav_field_u32 (o : JsonObject) (n : String) : Nat :=
  (cuav_parse_uint32 o n).getD 0

/-- A gint16 field extracted into a zeroed record: parse failure keeps 0. -/
def cuav_field_i16 (o : JsonObject) (n : String) : Int :=
  (cuav_parse_int16 o n).getD 0

/-- A gfloat field extracted into a zeroed record: parse failure keeps 0. -/
def cuav_field_f (o : JsonObject) (n : String) : ℚ :=
  (cuav_parse_float o n).getD 0

/-- A gdouble field extracted into a zeroed record: parse failure keeps 0. -/
def cuav_field_d (o : JsonObject) (n : String) : ℚ :=
  (cuav_parse_double o n).getD 0

/-- Models `cuav_parse_common_header`: the record is zeroed, each field is
extracted with the permissive coercions (absent or unparsable fields keep 0),
and the local receipt timestamp is stamped in. -/
def cuav_parse_common_header (common : JsonObject) (recv_ts_us : Nat) :
    CUAVCommonHeader where
  msg_id := cuav_field_u16 common "msg_id"
  msg_sn := cuav_field_u16 common "msg_sn"
  msg_type := cuav_field_u8 common "msg_type"
  tx_sys_id := cuav_field_u16 common "tx_sys_id"
  tx_dev_type := cuav_field_u16 common "tx_dev_type"
  tx_dev_id := cuav_field_u16 common "tx_dev_id"
  tx_subdev_id := cuav_field_u16 common "tx_subdev_id"
  rx_sys_id := cuav_field_u16 common "rx_sys_id"
  rx_dev_type := cuav_field_u16 common "rx_dev_type"
  rx_dev_id := cuav_field_u16 common "rx_dev_id"
  rx_subdev_id := cuav_field_u16 common "rx_subdev_id"
  yr := cuav_field_u16 common "yr"
  mo := cuav_field_u8 common "mo"
  dy := cuav_field_u8 common "dy"
  h := cuav_field_u8 common "h"
  min := cuav_field_u8 common "min"
  sec := cuav_field_u8 common "sec"
  msec := cuav_field_f common "msec"
  cont_type := cuav_field_u8 common "cont_type"
  cont_sum := cuav_field_u16 common "cont_sum"
  recv_ts_us := recv_ts_us

/-- Models `cuav_parse_guidance`: every payload field extracted independently,
missing fields default to zero. -/
def cuav_parse_guidance (specific : JsonObject) : CUAVGuidanceInfo where
  yr := cuav_field_u16 specific "yr"
  mo := cuav_field_u8 specific "mo"
  dy := cuav_field_u8 specific "dy"
  h := cuav_field_u8 specific "h"
  min := cuav_field_u8 specific "min"
  sec := cuav_field_u8 specific "sec"
  msec := cuav_field_f specific "msec"
  tar_id := cuav_field_u32 specific "tar_id"
  tar_category := cuav_field_u16 specific "tar_category"
  guid_stat := cuav_field_u8 specific "guid_stat"
  ecef_x := cuav_field_d specific "ecef_x"
  ecef_y := cuav_field_d specific "ecef_y"
  ecef_z := cuav_field_d specific "ecef_z"
  ecef_vx := cuav_field_d specific "ecef_vx"
  ecef_vy := cuav_field_d specific "ecef_vy"
  ecef_vz := cuav_field_d specific "ecef_vz"
  h_dvi_pct := cuav_field_f specific "h_dvi_pct"
  v_dvi_pct := cuav_field_f specific "v_dvi_pct"
  enu_r := cuav_field_d specific "enu_r"
  enu_a := cuav_field_d specific "enu_a"
  enu_e := cuav_field_d specific "enu_e"
  enu_v := cuav_field_d specific "enu_v"
  enu_h := cuav_field_d specific "enu_h"
  lon := cuav_field_d specific "lon"
  lat := cuav_field_d specific "lat"
  alt := cuav_field_d specific "alt"

/-- Models `cuav_parse_eo_system`. -/
def cuav_parse_eo_system (specific : JsonObject) : CUAVEOSystemParam where
  sv_stat := cuav_field_u8 specific "sv_stat"
  sv_err := cuav_field_u16 specific "sv_err"
  st_mode_h := cuav_field_u8 specific "st_mode_h"
  st_mode_v := cuav_field_u8 specific "st_mode_v"
  st_loc_h := cuav_field_f specific "st_loc_h"
  st_loc_v := cuav_field_f specific "st_loc_v"
  pt_stat := cuav_field_u8 specific "pt_stat"
  pt_err := cuav_field_u16 specific "pt_err"
  pt_focal := cuav_field_f specific "pt_focal"
  pt_focus := cuav_field_u16 specific "pt_focus"
  pt_fov_h := cuav_field_f specific "pt_fov_h"
  pt_fov_v := cuav_field_f specific "pt_fov_v"
  ir_stat := cuav_field_u8 specific "ir_stat"
  ir_err := cuav_field_u16 specific "ir_err"
  ir_focal := cuav_field_f specific "ir_focal"
  ir_focus := cuav_field_u16 specific "ir_focus"
  ir_fov_h := cuav_field_f specific "ir_fov_h"
  ir_fov_v := cuav_field_f specific "ir_fov_v"
  dm_stat := cuav_field_u8 specific "dm_stat"
  dm_err := cuav_field_u16 specific "dm_err"
  dm_dev := cuav_field_u8 specific "dm_dev"
  trk_dev := cuav_field_u8 specific "trk_dev"
  pt_trk_link := cuav_field_u8 specific "pt_trk_link"
  ir_trk_link := cuav_field_u8 specific "ir_trk_link"
  trk_str := cuav_field_u8 specific "trk_str"
  trk_mod := cuav_field_u8 specific "trk_mod"
  det_trk := cuav_field_u8 specific "det_trk"
  trk_stat := cuav_field_u8 specific "trk_stat"
  pt_zoom := cuav_field_u8 specific "pt_zoom"
  ir_zoom := cuav_field_u8 specific "ir_zoom"
  pt_focus_mode := cuav_field_u8 specific "pt_focus_mode"
  ir_focus_mode := cuav_field_u8 specific "ir_focus_mode"

/-- Models `cuav_parse_servo_control`. -/
def cuav_parse_servo_control (specific : JsonObject) : CUAVServoControl where
  dev_id := cuav_field_u8 specific "dev_id"
  dev_en := cuav_field_u8 specific "dev_en"
  ctrl_en := cuav_field_u8 specific "ctrl_en"
  mode_h := cuav_field_u8 specific "mode_h"
  mode_v := cuav_field_u8 specific "mode_v"
  speed_en_h := cuav_field_u8 specific "speed_en_h"
  speed_h := cuav_field_u8 specific "speed_h"
  speed_en_v := cuav_field_u8 specific "speed_en_v"
  speed_v := cuav_field_u8 specific "speed_v"
  loc_en_h := cuav_field_u8 specific "loc_en_h"
  loc_h := cuav_field_f specific "loc_h"
  loc_en_v := cuav_field_u8 specific "loc_en_v"
  loc_v := cuav_field_f specific "loc_v"
  offset_en := cuav_field_u8 specific "offset_en"
  offset_h := cuav_field_i16 specific "offset_h"
  offset_v := cuav_field_i16 specific "offset_v"

/-- The guidance message identity (`CUAV_MSG_ID_GUIDANCE`, 0x7111). -/
def CUAV_MSG_ID_GUIDANCE : Nat := 0x7111

/-- The EO system parameter message identity (`CUAV_MSG_ID_EO_SYSTEM`, 0x7201). -/
def CUAV_MSG_ID_EO_SYSTEM : Nat := 0x7201

/-- The EO servo control message identity (`CUAV_MSG_ID_EO_SERVO`, 0x7204). -/
def CUAV_MSG_ID_EO_SERVO : Nat := 0x7204

/-- Models locating the common header block: the member named 公共内容 must be
present and hold an object. -/
def cuav_locate_common (root_obj : JsonObject) : Option JsonObject :=
  match json_object_get_member root_obj "公共内容" with
  | some (.jobject o) => some o
  | _ => none

/-- Models `cuav_get_specific_from_cont`: the first array item that is an
object whose 具体信息 member holds an object; items whose member is absent or
holds a non-object are skipped. -/
def cuav_get_specific_from_cont (cont : List JsonValue) : Option JsonObject :=
  match cont with
  | [] => none
  | item :: rest =>
    match item with
    | .jobject o =>
      (match json_object_get_member o "具体信息" with
       | some (.jobject so) => some so
       | _ => cuav_get_specific_from_cont rest)
    | _ => cuav_get_specific_from_cont rest

/-- Models locating the payload block in `cuav_parser_parse`: if the root has
a 具体信息 member it must hold an object (a non-object member fails without
consulting `cont`); only when that member is absent is a `cont` array searched
via `cuav_get_specific_from_cont`. -/
def cuav_locate_specific (root_obj : JsonObject) : Option JsonObject :=
  if json_object_has_member root_obj "具体信息" then
    match json_object_get_member root_obj "具体信息" with
    | some (.jobject o) => some o
    | _ => none
  else
    match json_object_get_member root_obj "cont" with
    | some (.jarray xs) => cuav_get_specific_from_cont xs
    | _ => none

/-- Which of the four optional callbacks are registered on the parser
instance. -/
structure CUAVCallbacks where
  guidance : Bool
  eo_system : Bool
  servo : Bool
  raw : Bool

/-- One callback invocation performed by `cuav_parser_parse`, in invocation
order. -/
inductive CUAVEvent where
  | guidance (header : CUAVCommonHeader) (info : CUAVGuidanceInfo)
  | eoSystem (header : CUAVCommonHeader) (param : CUAVEOSystemParam)
  | servoControl (header : CUAVCommonHeader) (servo : CUAVServoControl)
  | raw (header : CUAVCommonHeader) (specific : JsonObject)

/-- Models `cuav_parser_parse` after JSON parsing (`input = none` stands for a
`json_parser_load_from_data` failure, a NULL data pointer or `len <= 0`):
returns the gboolean result together with the list of callback invocations in
order.  A recognised message identity fires its typed callback (if registered)
and then the raw callback (if registered); any other identity fires only the
raw callback; all these paths report success. -/
def cuav_parser_parse (cbs : CUAVCallbacks) (input : Option JsonValue)
    (recv_ts_us : Nat) : Bool × List CUAVEvent :=
  match input with
  | none => (false, [])
  | some root =>
    match root with
    | .jobject root_obj =>
      match cuav_locate_common root_obj with
      | none => (false, [])
      | some common =>
        let header := cuav_parse_common_header common recv_ts_us
        match cuav_locate_specific root_obj with
        | none => (false, [])
        | some specific =>
          if header.msg_id = CUAV_MSG_ID_GUIDANCE then
            (true,
              (if cbs.guidance then [CUAVEvent.guidance header (cuav_parse_guidance specific)] else []) ++
              (if cbs.raw then [CUAVEvent.raw header specific] else []))
          else if header.msg_id = CUAV_MSG_ID_EO_SYSTEM then
            (true,
              (if cbs.eo_system then [CUAVEvent.eoSystem header (cuav_parse_eo_system specific)] else []) ++
              (if cbs.raw then [CUAVEvent.raw header specific] else []))
          else if header.msg_id = CUAV_MSG_ID_EO_SERVO then
            (true,
              (if cbs.servo then [CUAVEvent.servoControl header (cuav_parse_servo_control specific)] else []) ++
              (if cbs.raw then [CUAVEvent.raw header specific] else []))
          else
            (true, if cbs.raw then [CUAVEvent.raw header specific] else [])
    | _ => (false, [])

/-- A sequence of cache updates, one per (key, value) item, as performed by
the write path for a stream of accepted datagrams sharing one receipt time. -/
def udpjson_insert_all (cap ts : Nat) (c : UdpJsonCache)
    (items : List (UdpJsonCacheKey × String)) : UdpJsonCache :=
  items.foldl
    (fun acc it => udpjson_cache_update cap acc it.1.source_id it.1.object_id it.2 ts) c

/-- A structured-protocol message with a common header object and a direct
payload object. -/
def mkCuavMessage (common specific : JsonObject) : JsonObject :=
  [("公共内容", JsonValue.jobject common), ("具体信息", JsonValue.jobject specific)]

/-- A complete guidance payload in which every field of `CUAVGuidanceInfo` is
present: integer fields are carried as JSON integers and double fields as JSON
doubles, the encodings the wire produces. -/
def mkGuidancePayload (yr mo dy h mn sec : Nat) (msec : Int)
    (tar_id tar_category guid_stat : Nat)
    (ecef_x ecef_y ecef_z ecef_vx ecef_vy ecef_vz : ℚ) (h_dvi v_dvi : Int)
    (enu_r enu_a enu_e enu_v enu_h lon lat alt : ℚ) : JsonObject :=
  [("yr", JsonValue.jint (yr : Int)), ("mo", JsonValue.jint (mo : Int)),
   ("dy", JsonValue.jint (dy : Int)), ("h", JsonValue.jint (h : Int)),
   ("min", JsonValue.jint (mn : Int)), ("sec", JsonValue.jint (sec : Int)),
   ("msec", JsonValue.jint msec),
   ("tar_id", JsonValue.jint (tar_id : Int)),
   ("tar_category", JsonValue.jint (tar_category : Int)),
   ("guid_stat", JsonValue.jint (guid_stat : Int)),
   ("ecef_x", JsonValue.jdouble ecef_x), ("ecef_y", JsonValue.jdouble ecef_y),
   ("ecef_z", JsonValue.jdouble ecef_z), ("ecef_vx", JsonValue.jdouble ecef_vx),
   ("ecef_vy", JsonValue.jdouble ecef_vy), ("ecef_vz", JsonValue.jdouble ecef_vz),
   ("h_dvi_pct", JsonValue.jint h_dvi), ("v_dvi_pct", JsonValue.jint v_dvi),
   ("enu_r", JsonValue.jdouble enu_r), ("enu_a", JsonValue.jdouble enu_a),
   ("enu_e", JsonValue.jdouble enu_e), ("enu_v", JsonValue.jdouble enu_v),
   ("enu_h", JsonValue.jdouble enu_h), ("lon", JsonValue.jdouble lon),
   ("lat", JsonValue.jdouble lat), ("alt", JsonValue.jdouble alt)]

/-! Helper lemmas shared by the claim theorems. -/

/-- The distinct-key count never exceeds the entry count. -/
theorem cache_size_le_length (c : UdpJsonCache) : cache_size c ≤ c.length := by
  have h := (List.dedup_sublist (c.map Prod.fst)).length_le
  simpa [cache_size] using h

/-- On a cache with pairwise distinct keys, the hash-table size is the list
length. -/
theorem cache_size_of_nodup (c : UdpJsonCache) (h : (c.map Prod.fst).Nodup) :
    cache_size c = c.length := by
  simp [cache_size, h.dedup]

/-- Replacing a key that is not present just prepends the binding. -/
theorem cache_replace_fresh (c : UdpJsonCache) (k : UdpJsonCacheKey)
    (v : UdpJsonCacheValue) (h : ∀ e ∈ c, e.1 ≠ k) :
    cache_replace c k v = (k, v) :: c := by
  unfold cache_replace
  congr 1
  exact List.filter_eq_self.mpr (fun e he => by simpa using h e he)

/-- Lookup of a different key is unaffected by filtering out `k`. -/
theorem cache_find_filter_ne (c : UdpJsonCache) (k k2 : UdpJsonCacheKey)
    (hne : k2 ≠ k) :
    cache_find (c.filter (fun e => decide (e.1 ≠ k))) k2 = cache_find c k2 := by
  induction c with
  | nil => rfl
  | cons e rest ih =>
    by_cases hek : e.1 = k
    · have hp : (decide (e.1 ≠ k)) = false := by simp [hek]
      have hn2 : ¬ e.1 = k2 := fun h2 => hne (by rw [← h2, hek])
      rw [List.filter_cons, hp]
      simp only [Bool.false_eq_true, if_false]
      rw [ih]
      simp [cache_find, hn2]
    · have hp : (decide (e.1 ≠ k)) = true := by simp [hek]
      rw [List.filter_cons, hp]
      simp only [if_true]
      by_cases he2 : e.1 = k2
      · simp only [cache_find]
        rw [if_pos he2, if_pos he2]
      · simp only [cache_find]
        rw [if_neg he2, if_neg he2]
        exact ih

/-- Lookup after `cache_replace`: the replaced key sees the new value, any
other key sees what it saw before. -/
theorem cache_find_replace (c : UdpJsonCache) (k k2 : UdpJsonCacheKey)
    (v : UdpJsonCacheValue) :
    cache_find (cache_replace c k v) k2 =
      if k2 = k then some v else cache_find c k2 := by
  by_cases h : k2 = k
  · subst h
    simp [cache_replace, cache_find]
  · have h2 : ¬ k = k2 := fun he => h he.symm
    unfold cache_replace
    rw [if_neg h]
    simp only [cache_find]
    rw [if_neg h2, cache_find_filter_ne c k k2 h]

/-- While the cache stays strictly below capacity and the inserted keys are
fresh and pairwise distinct, each update just prepends its entry. -/
theorem udpjson_insert_all_no_clear (cap ts : Nat) (_hcap : 0 < cap)
    (items : List (UdpJsonCacheKey × String)) :
    ∀ c : UdpJsonCache,
      (c.map Prod.fst).Nodup →
      (items.map Prod.fst).Nodup →
      (∀ it ∈ items, it.1 ∉ c.map Prod.fst) →
      c.length + items.length ≤ cap →
      udpjson_insert_all cap ts c items =
        (items.reverse.map (fun it => (it.1, (⟨it.2, ts⟩ : UdpJsonCacheValue)))) ++ c := by
  induction items with
  | nil =>
    intro c _ _ _ _
    simp [udpjson_insert_all]
  | cons it rest ih =>
    intro c hcn hin hdisj hlen
    have hfresh : it.1 ∉ c.map Prod.fst := hdisj it (List.mem_cons_self it rest)
    have hguard : ¬ (0 < cap ∧ cap ≤ cache_size c) := by
      rw [cache_size_of_nodup c hcn]
      simp only [List.length_cons] at hlen
      rintro ⟨-, h2⟩
      omega
    have hstep : udpjson_cache_update cap c it.1.source_id it.1.object_id it.2 ts
        = (it.1, (⟨it.2, ts⟩ : UdpJsonCacheValue)) :: c := by
      unfold udpjson_cache_update
      rw [if_neg hguard]
      refine cache_replace_fresh c _ _ (fun e he heq => hfresh ?_)
      have hkey : (⟨it.1.source_id, it.1.object_id⟩ : UdpJsonCacheKey) = it.1 := rfl
      rw [← hkey, ← heq]
      exact List.mem_map_of_mem Prod.fst he
    have hfold : udpjson_insert_all cap ts c (it :: rest)
        = udpjson_insert_all cap ts ((it.1, (⟨it.2, ts⟩ : UdpJsonCacheValue)) :: c) rest := by
      unfold udpjson_insert_all
      simp only [List.foldl_cons]
      rw [hstep]
    have hin2 : it.1 ∉ rest.map Prod.fst := by
      have := hin
      simp only [List.map_cons, List.nodup_cons] at this
      exact this.1
    have hinr : (rest.map Prod.fst).Nodup := by
      have := hin
      simp only [List.map_cons, List.nodup_cons] at this
      exact this.2
    have hc2n : (((it.1, (⟨it.2, ts⟩ : UdpJsonCacheValue)) :: c).map Prod.fst).Nodup := by
      simp only [List.map_cons, List.nodup_cons]
      exact ⟨hfresh, hcn⟩
    have hdisj2 : ∀ it2 ∈ rest,
        it2.1 ∉ ((it.1, (⟨it.2, ts⟩ : UdpJsonCacheValue)) :: c).map Prod.fst := by
      intro it2 hmem
      simp only [List.map_cons, List.mem_cons]
      rintro (heq | hmem2)
      · exact hin2 (heq ▸ List.mem_map_of_mem Prod.fst hmem)
      · exact hdisj it2 (List.mem_cons_of_mem it hmem) hmem2
    have hlen2 : ((it.1, (⟨it.2, ts⟩ : UdpJsonCacheValue)) :: c).length + rest.length ≤ cap := by
      simp only [List.length_cons] at hlen ⊢
      omega
    rw [hfold, ih _ hc2n hinr hdisj2 hlen2]
    simp [List.map_append]

/-- Claim C2: with capacity > 0, an update on a cache already holding at least
`capacity` entries clears everything and leaves exactly the new entry; after
every update the size is at most `capacity`; and inserting capacity + 1
distinct keys into an empty cache leaves the first inserted key absent. -/
theorem claim_C2 (cap : Nat) (hcap : 0 < cap) :
    (∀ (c : UdpJsonCache) (sid oid : Nat) (v : String) (ts : Nat),
        cap ≤ cache_size c →
        udpjson_cache_update cap c sid oid v ts
          = [(⟨sid, oid⟩, (⟨v, ts⟩ : UdpJsonCacheValue))]) ∧
    (∀ (c : UdpJsonCache) (sid oid : Nat) (v : String) (ts : Nat),
        (c.map Prod.fst).Nodup →
        cache_size (udpjson_cache_update cap c sid oid v ts) ≤ cap) ∧
    (∀ (ts : Nat) (it1 : UdpJsonCacheKey × String)
        (rest : List (UdpJsonCacheKey × String)),
        ((it1 :: rest).map Prod.fst).Nodup →
        (it1 :: rest).length = cap + 1 →
        cache_find (udpjson_insert_all cap ts [] (it1 :: rest)) it1.1 = none) := by
  refine ⟨?_, ?_, ?_⟩
  · intro c sid oid v ts hfull
    unfold udpjson_cache_update
    rw [if_pos ⟨hcap, hfull⟩]
    rfl
  · intro c sid oid v ts hcn
    unfold udpjson_cache_update
    by_cases hg : 0 < cap ∧ cap ≤ cache_size c
    · rw [if_pos hg]
      show cache_size (cache_replace [] ⟨sid, oid⟩ ⟨v, ts⟩) ≤ cap
      have h1 : cache_size (cache_replace [] ⟨sid, oid⟩ ⟨v, ts⟩) = 1 := rfl
      omega
    · rw [if_neg hg]
      show cache_size (cache_replace c ⟨sid, oid⟩ ⟨v, ts⟩) ≤ cap
      have hlt : cache_size c < cap := by
        rcases Nat.lt_or_ge (cache_size c) cap with h | h
        · exact h
        · exact absurd ⟨hcap, h⟩ hg
      have hrl : (cache_replace c ⟨sid, oid⟩ ⟨v, ts⟩).length ≤ c.length + 1 := by
        unfold cache_replace
        simp only [List.length_cons]
        have := List.length_filter_le
          (fun e => decide (e.1 ≠ (⟨sid, oid⟩ : UdpJsonCacheKey))) c
        omega
      have hle := cache_size_le_length (cache_replace c ⟨sid, oid⟩ ⟨v, ts⟩)
      have hclen : c.length = cache_size c := (cache_size_of_nodup c hcn).symm
      omega
  · intro ts it1 rest hnodup hlen
    rcases List.eq_nil_or_concat rest with hre | ⟨mid, l, hre⟩
    · subst hre
      simp only [List.length_cons, List.length_nil] at hlen
      omega
    · subst hre
      simp only [List.concat_eq_append] at hnodup hlen ⊢
      have hsplit : it1 :: (mid ++ [l]) = (it1 :: mid) ++ [l] := rfl
      rw [hsplit] at hnodup hlen ⊢
      have hlenf : (it1 :: mid).length = cap := by
        simp only [List.length_append, List.length_cons, List.length_nil] at hlen
        simp only [List.length_cons]
        omega
      have hsub : List.Sublist ((it1 :: mid).map Prod.fst)
          (((it1 :: mid) ++ [l]).map Prod.fst) :=
        (List.sublist_append_left (it1 :: mid) [l]).map Prod.fst
      have hfn : ((it1 :: mid).map Prod.fst).Nodup := hnodup.sublist hsub
      have hmid := udpjson_insert_all_no_clear cap ts hcap (it1 :: mid) []
        (by simp) hfn (by simp) (by simp [hlenf])
      have hfold : udpjson_insert_all cap ts [] ((it1 :: mid) ++ [l])
          = udpjson_cache_update cap (udpjson_insert_all cap ts [] (it1 :: mid))
              l.1.source_id l.1.object_id l.2 ts := by
        unfold udpjson_insert_all
        simp only [List.foldl_append, List.foldl_cons, List.foldl_nil]
      rw [hfold, hmid]
      have hAkeys : (((it1 :: mid).reverse.map
            (fun it => (it.1, (⟨it.2, ts⟩ : UdpJsonCacheValue)))) ++ ([] : UdpJsonCache)).map Prod.fst
          = ((it1 :: mid).map Prod.fst).reverse := by
        simp [List.map_reverse, Function.comp]
      have hAnodup : ((((it1 :: mid).reverse.map
            (fun it => (it.1, (⟨it.2, ts⟩ : UdpJsonCacheValue)))) ++ ([] : UdpJsonCache)).map Prod.fst).Nodup := by
        rw [hAkeys]
        exact List.nodup_reverse.mpr hfn
      have hAsize : cache_size (((it1 :: mid).reverse.map
            (fun it => (it.1, (⟨it.2, ts⟩ : UdpJsonCacheValue)))) ++ ([] : UdpJsonCache)) = cap := by
        rw [cache_size_of_nodup _ hAnodup]
        simp only [List.length_append, List.length_map, List.length_reverse,
          List.length_nil, List.length_cons]
        simp only [List.length_cons] at hlenf
        omega
      unfold udpjson_cache_update
      rw [if_pos ⟨hcap, le_of_eq hAsize.symm⟩]
      have hne : ¬ (⟨l.1.source_id, l.1.object_id⟩ : UdpJsonCacheKey) = it1.1 := by
        have hkeys : ((it1 :: mid) ++ [l]).map Prod.fst
            = it1.1 :: (mid.map Prod.fst ++ [l.1]) := by simp
        rw [hkeys] at hnodup
        have hhead := (List.nodup_cons.mp hnodup).1
        intro heq
        have hl1 : l.1 = it1.1 := heq ▸ rfl
        exact hhead (List.mem_append_right _ (by simp [hl1]))
      simp only [cache_replace, List.filter_nil, cache_find]
      rw [if_neg hne]

/-- Claim C3: a lookup of an absent key returns no value; a present entry
older than a positive TTL (age in milliseconds computed from the microsecond
timestamps) returns no value while the entry stays in the map, so a second
lookup with ttl = 0 still returns the stale value and its receipt timestamp;
otherwise the stored value and timestamp are returned. -/
theorem claim_C3 (c : UdpJsonCache) (sid oid now ttl : Nat) :
    (cache_find c ⟨sid, oid⟩ = none → udpjson_cache_lookup c sid oid now ttl = none) ∧
    (∀ v : UdpJsonCacheValue, cache_find c ⟨sid, oid⟩ = some v →
      v.recv_ts_us ≤ now → now - v.recv_ts_us < two64 →
      ((0 < ttl → ttl < (now - v.recv_ts_us) / 1000 →
          udpjson_cache_lookup c sid oid now ttl = none ∧
          udpjson_cache_lookup c sid oid now 0 = some v) ∧
       (¬ (0 < ttl ∧ ttl < (now - v.recv_ts_us) / 1000) →
          udpjson_cache_lookup c sid oid now ttl = some v))) := by
  constructor
  · intro h
    unfold udpjson_cache_lookup
    rw [h]
  · intro v hv hle hrange
    have hage : (now + two64 - v.recv_ts_us) % two64 = now - v.recv_ts_us := by
      simp only [two64] at hrange ⊢
      omega
    constructor
    · intro h1 h2
      constructor
      · unfold udpjson_cache_lookup
        rw [hv]
        show (if 0 < ttl ∧ ttl < ((now + two64 - v.recv_ts_us) % two64) / 1000
              then none else some v) = none
        rw [hage, if_pos ⟨h1, h2⟩]
      · unfold udpjson_cache_lookup
        rw [hv]
        simp
    · intro hnc
      unfold udpjson_cache_lookup
      rw [hv]
      show (if 0 < ttl ∧ ttl < ((now + two64 - v.recv_ts_us) % two64) / 1000
            then none else some v) = some v
      rw [hage, if_neg hnc]

/-- Witness for claim C3 at a concrete expired entry. -/
theorem claim_C3_witness :
    udpjson_cache_lookup [(⟨1, 2⟩, ⟨"v", 1000000⟩)] 1 2 5000000 3 = none ∧
    udpjson_cache_lookup [(⟨1, 2⟩, ⟨"v", 1000000⟩)] 1 2 5000000 0
      = some ⟨"v", 1000000⟩ :=
  ((claim_C3 [(⟨1, 2⟩, ⟨"v", 1000000⟩)] 1 2 5000000 3).2 ⟨"v", 1000000⟩ (by decide)
    (by decide) (by decide)).1 (by decide) (by decide)

/-- Claim C10: an update performed while the size is strictly below capacity
(or capacity is 0) changes only the entry of the updated key: every other key
keeps its exact value string and receipt timestamp. -/
theorem claim_C10 (cap : Nat) (c : UdpJsonCache) (sid oid : Nat) (v : String)
    (ts : Nat) (hroom : cap = 0 ∨ cache_size c < cap) (k2 : UdpJsonCacheKey) :
    cache_find (udpjson_cache_update cap c sid oid v ts) k2 =
      if k2 = ⟨sid, oid⟩ then some ⟨v, ts⟩ else cache_find c k2 := by
  have hguard : ¬ (0 < cap ∧ cap ≤ cache_size c) := by
    rintro ⟨h1, h2⟩
    rcases hroom with h | h <;> omega
  unfold udpjson_cache_update
  rw [if_neg hguard]
  exact cache_find_replace c _ k2 _

/-- Witness for claim C10: the untouched key keeps its entry. -/
theorem claim_C10_witness :
    cache_find (udpjson_cache_update 2 [(⟨1, 1⟩, ⟨"a", 3⟩)] 1 2 "b" 4) ⟨1, 1⟩
      = some ⟨"a", 3⟩ := by
  rw [claim_C10 2 [(⟨1, 1⟩, ⟨"a", 3⟩)] 1 2 "b" 4 (Or.inr (by decide)) ⟨1, 1⟩]
  decide

/-- Witness for claim C2 at capacity 1. -/
theorem claim_C2_witness :
    udpjson_cache_update 1 [(⟨0, 7⟩, ⟨"x", 5⟩)] 0 8 "y" 6 = [(⟨0, 8⟩, ⟨"y", 6⟩)] ∧
    cache_size (udpjson_cache_update 1 [(⟨0, 7⟩, ⟨"x", 5⟩)] 0 8 "y" 6) ≤ 1 ∧
    cache_find (udpjson_insert_all 1 0 [] [(⟨0, 1⟩, "a"), (⟨0, 2⟩, "b")]) ⟨0, 1⟩ = none :=
  ⟨(claim_C2 1 (by decide)).1 _ 0 8 "y" 6 (by decide),
   (claim_C2 1 (by decide)).2.1 _ 0 8 "y" 6 (by decide),
   (claim_C2 1 (by decide)).2.2 0 (⟨0, 1⟩, "a") [(⟨0, 2⟩, "b")] (by decide) (by decide)⟩

/-- Lookup of the key just prepended finds its value. -/
theorem cache_find_cons_self (k : UdpJsonCacheKey) (v : UdpJsonCacheValue)
    (c : UdpJsonCache) : cache_find ((k, v) :: c) k = some v := by
  simp [cache_find]

/-- Claim C1 counterexample: the receive loop hands the datagram to the
envelope extractor only — its call list contains no protocol-decoder
invocation at all, contradicting the claim that the bytes are passed to both
the extractor and the protocol decoder. -/
theorem claim_C1_counterexample :
    udpjson_recv_step [123, 125] = [ListenerCall.extractor [123, 125]] ∧
    (udpjson_recv_step [123, 125]).filter ListenerCall.isDecoderCall = [] := by
  decide

/-- Claim C1 (amended): for every non-empty datagram that fits the 8191-byte
read bound, the listener step passes the bytes unchanged to the generic
envelope extractor inline, and performs no other decode invocation — in
particular the structured protocol decoder is not invoked. -/
theorem claim_C1 (d : List Nat) (h1 : d ≠ []) (h2 : d.length ≤ 8191) :
    udpjson_recv_step d = [ListenerCall.extractor d] := by
  unfold udpjson_recv_step
  rw [if_neg (by simpa using h1), List.take_of_length_le h2]

/-- Witness for claim C1 at a concrete datagram. -/
theorem claim_C1_witness :
    udpjson_recv_step [10, 20, 30] = [ListenerCall.extractor [10, 20, 30]] :=
  claim_C1 [10, 20, 30] (by decide) (by decide)

/-- Claim C4 counterexample: the protocol decoder's integer coercion rejects
the double encoding — the field supplied as the JSON double 42.0 fails
`cuav_parse_uint16` (so the record field keeps its zero default, not 42),
contradicting the claim that string, integer and double encodings are all
accepted for integer target types. -/
theorem claim_C4_counterexample :
    cuav_parse_uint16 [("x", JsonValue.jdouble 42)] "x" = none ∧
    cuav_field_u16 [("x", JsonValue.jdouble 42)] "x" = 0 := ⟨rfl, rfl⟩

/-- Claim C4 (amended): the envelope extractor's unsigned-64 coercion and the
protocol decoder's floating-point coercions decode the JSON string "42", the
JSON integer 42 and the JSON double 42.0 to the identical value 42; the
protocol decoder's integer coercions decode the string and integer encodings
to 42 but reject the double encoding (the field then keeps its zero
default). -/
theorem claim_C4 :
    (udpjson_parse_uint64 (JsonValue.jstring "42") = some 42 ∧
     udpjson_parse_uint64 (JsonValue.jint 42) = some 42 ∧
     udpjson_parse_uint64 (JsonValue.jdouble 42) = some 42) ∧
    (cuav_parse_double [("x", JsonValue.jstring "42")] "x" = some 42 ∧
     cuav_parse_double [("x", JsonValue.jint 42)] "x" = some 42 ∧
     cuav_parse_double [("x", JsonValue.jdouble 42)] "x" = some 42) ∧
    (cuav_parse_float [("x", JsonValue.jstring "42")] "x" = some 42 ∧
     cuav_parse_float [("x", JsonValue.jint 42)] "x" = some 42 ∧
     cuav_parse_float [("x", JsonValue.jdouble 42)] "x" = some 42) ∧
    (cuav_parse_uint16 [("x", JsonValue.jstring "42")] "x" = some 42 ∧
     cuav_parse_uint16 [("x", JsonValue.jint 42)] "x" = some 42 ∧
     cuav_parse_uint16 [("x", JsonValue.jdouble 42)] "x" = none) ∧
    (cuav_parse_uint8 [("x", JsonValue.jstring "42")] "x" = some 42 ∧
     cuav_parse_uint8 [("x", JsonValue.jint 42)] "x" = some 42 ∧
     cuav_parse_uint8 [("x", JsonValue.jdouble 42)] "x" = none) ∧
    (cuav_parse_uint32 [("x", JsonValue.jstring "42")] "x" = some 42 ∧
     cuav_parse_uint32 [("x", JsonValue.jint 42)] "x" = some 42 ∧
     cuav_parse_uint32 [("x", JsonValue.jdouble 42)] "x" = none) ∧
    (cuav_parse_int16 [("x", JsonValue.jstring "42")] "x" = some 42 ∧
     cuav_parse_int16 [("x", JsonValue.jint 42)] "x" = some 42 ∧
     cuav_parse_int16 [("x", JsonValue.jdouble 42)] "x" = none) := by
  decide


/-- Reduction of the extractor on an accepted datagram: object root, present
and coercible object-id, present value member. -/
theorem udpjson_parse_and_cache_accepted (cfg : ExtractorConfig) (cap : Nat)
    (c : UdpJsonCache) (now : Nat) (obj : JsonObject)
    (oid_node val_node : JsonValue) (oid : Nat)
    (h1 : json_object_get_member obj cfg.object_id_key = some oid_node)
    (h2 : udpjson_parse_uint64 oid_node = some oid)
    (h3 : json_object_get_member obj cfg.json_key = some val_node) :
    udpjson_parse_and_cache cfg cap c (some (JsonValue.jobject obj)) now
      = udpjson_cache_update cap c (udpjson_source_id64 cfg obj % two32) oid
          (udpjson_node_to_string val_node) now := by
  simp only [udpjson_parse_and_cache, h1, h3, h2]

/-- Lookup after an update of the same key within the TTL window returns the
just-stored value and timestamp. -/
theorem udpjson_lookup_after_update (cap : Nat) (c : UdpJsonCache) (sid oid : Nat)
    (v : String) (now later ttl : Nat) (hmono : now ≤ later)
    (hrange : later - now < two64)
    (hfresh : ttl = 0 ∨ (later - now) / 1000 ≤ ttl) :
    udpjson_cache_lookup (udpjson_cache_update cap c sid oid v now) sid oid later ttl
      = some ⟨v, now⟩ := by
  have hupd : ∃ c1, udpjson_cache_update cap c sid oid v now
      = ((⟨sid, oid⟩ : UdpJsonCacheKey), (⟨v, now⟩ : UdpJsonCacheValue)) :: c1 :=
    ⟨_, rfl⟩
  rcases hupd with ⟨c1, hc1⟩
  rw [hc1]
  unfold udpjson_cache_lookup
  rw [cache_find_cons_self]
  show (if 0 < ttl ∧ ttl < ((later + two64 - now) % two64) / 1000
        then none else some (⟨v, now⟩ : UdpJsonCacheValue)) = some ⟨v, now⟩
  have hage : (later + two64 - now) % two64 = later - now := by
    simp only [two64] at hrange ⊢
    omega
  rw [hage, if_neg]
  rintro ⟨ht1, ht2⟩
  rcases hfresh with h | h <;> omega

/-- Claim C5: a parse failure, a non-object root, a missing object-id or
value member, or an uncoercible object-id leaves the cache unchanged (the
datagram is discarded; no error reaches the caller because the function
simply returns); an absent or uncoercible source-id is not a discard — the
datagram is processed with source identity 0. -/
theorem claim_C5 (cfg : ExtractorConfig) (cap : Nat) (c : UdpJsonCache) (now : Nat) :
    (udpjson_parse_and_cache cfg cap c none now = c) ∧
    (∀ root : JsonValue, root.isObject = false →
      udpjson_parse_and_cache cfg cap c (some root) now = c) ∧
    (∀ obj : JsonObject,
      json_object_get_member obj cfg.object_id_key = none ∨
      json_object_get_member obj cfg.json_key = none →
      udpjson_parse_and_cache cfg cap c (some (JsonValue.jobject obj)) now = c) ∧
    (∀ (obj : JsonObject) (oid_node : JsonValue),
      json_object_get_member obj cfg.object_id_key = some oid_node →
      udpjson_parse_uint64 oid_node = none →
      udpjson_parse_and_cache cfg cap c (some (JsonValue.jobject obj)) now = c) ∧
    (∀ (obj : JsonObject) (oid_node val_node : JsonValue) (oid : Nat),
      json_object_get_member obj cfg.object_id_key = some oid_node →
      udpjson_parse_uint64 oid_node = some oid →
      json_object_get_member obj cfg.json_key = some val_node →
      (json_object_get_member obj cfg.source_id_key = none ∨
        ∃ sn, json_object_get_member obj cfg.source_id_key = some sn ∧
          udpjson_parse_uint64 sn = none) →
      udpjson_parse_and_cache cfg cap c (some (JsonValue.jobject obj)) now
        = udpjson_cache_update cap c 0 oid (udpjson_node_to_string val_node) now) := by
  refine ⟨rfl, ?_, ?_, ?_, ?_⟩
  · intro root h
    cases root with
    | jobject members => simp [JsonValue.isObject] at h
    | jnull => rfl
    | jbool b => rfl
    | jint n => rfl
    | jdouble q => rfl
    | jstring s => rfl
    | jarray items => rfl
  · intro obj h
    rcases h with h | h
    · cases hj : json_object_get_member obj cfg.json_key with
      | none => simp only [udpjson_parse_and_cache, h, hj]
      | some vn => simp only [udpjson_parse_and_cache, h, hj]
    · cases ho : json_object_get_member obj cfg.object_id_key with
      | none => simp only [udpjson_parse_and_cache, h, ho]
      | some on2 => simp only [udpjson_parse_and_cache, h, ho]
  · intro obj oid_node h1 h2
    cases hj : json_object_get_member obj cfg.json_key with
    | none => simp only [udpjson_parse_and_cache, h1, hj]
    | some vn => simp only [udpjson_parse_and_cache, h1, hj, h2]
  · intro obj oid_node val_node oid h1 h2 h3 h4
    rw [udpjson_parse_and_cache_accepted cfg cap c now obj oid_node val_node oid h1 h2 h3]
    have hs : udpjson_source_id64 cfg obj = 0 := by
      rcases h4 with h4 | ⟨sn, hsn, hpn⟩
      · simp only [udpjson_source_id64, h4]
      · simp only [udpjson_source_id64, hsn, hpn, Option.getD_none]
    rw [hs]
    simp

/-- Witness for claim C5: each discard case and the default-source case at
concrete inputs. -/
theorem claim_C5_witness :
    udpjson_parse_and_cache ⟨"value", "object_id", "source_id"⟩ 8 [] none 3 = [] ∧
    udpjson_parse_and_cache ⟨"value", "object_id", "source_id"⟩ 8 []
      (some (JsonValue.jint 5)) 3 = [] ∧
    udpjson_parse_and_cache ⟨"value", "object_id", "source_id"⟩ 8 []
      (some (JsonValue.jobject [("value", JsonValue.jint 1)])) 3 = [] ∧
    udpjson_parse_and_cache ⟨"value", "object_id", "source_id"⟩ 8 []
      (some (JsonValue.jobject
        [("object_id", JsonValue.jbool true), ("value", JsonValue.jint 1)])) 3 = [] ∧
    udpjson_parse_and_cache ⟨"value", "object_id", "source_id"⟩ 8 []
      (some (JsonValue.jobject
        [("object_id", JsonValue.jint 7), ("value", JsonValue.jstring "v")])) 3
      = udpjson_cache_update 8 [] 0 7 (udpjson_node_to_string (JsonValue.jstring "v")) 3 :=
  ⟨(claim_C5 ⟨"value", "object_id", "source_id"⟩ 8 [] 3).1,
   (claim_C5 ⟨"value", "object_id", "source_id"⟩ 8 [] 3).2.1 (JsonValue.jint 5) rfl,
   (claim_C5 ⟨"value", "object_id", "source_id"⟩ 8 [] 3).2.2.1
     [("value", JsonValue.jint 1)] (Or.inl rfl),
   (claim_C5 ⟨"value", "object_id", "source_id"⟩ 8 [] 3).2.2.2.1
     [("object_id", JsonValue.jbool true), ("value", JsonValue.jint 1)]
     (JsonValue.jbool true) rfl rfl,
   (claim_C5 ⟨"value", "object_id", "source_id"⟩ 8 [] 3).2.2.2.2
     [("object_id", JsonValue.jint 7), ("value", JsonValue.jstring "v")]
     (JsonValue.jint 7) (JsonValue.jstring "v") 7 rfl rfl rfl (Or.inl rfl)⟩

/-- Claim C6: a valid generic-schema datagram stored through the extractor
and looked up before TTL expiry returns exactly the value string the
extractor produced, with its receipt timestamp; the serialization cases of
the extractor are: JSON strings pass through unescaped, boolean / int64 /
double scalars get their textual forms, and objects / arrays are serialized
back to compact JSON. -/
theorem claim_C6 (cfg : ExtractorConfig) (cap : Nat) (c : UdpJsonCache)
    (obj : JsonObject) (oid_node val_node : JsonValue) (oid : Nat)
    (now later ttl : Nat)
    (h1 : json_object_get_member obj cfg.object_id_key = some oid_node)
    (h2 : udpjson_parse_uint64 oid_node = some oid)
    (h3 : json_object_get_member obj cfg.json_key = some val_node)
    (hmono : now ≤ later) (hrange : later - now < two64)
    (hfresh : ttl = 0 ∨ (later - now) / 1000 ≤ ttl) :
    udpjson_cache_lookup
        (udpjson_parse_and_cache cfg cap c (some (JsonValue.jobject obj)) now)
        (udpjson_source_id64 cfg obj % two32) oid later ttl
      = some ⟨udpjson_node_to_string val_node, now⟩ ∧
    (∀ s, udpjson_node_to_string (JsonValue.jstring s) = s) ∧
    (∀ b, udpjson_node_to_string (JsonValue.jbool b) = if b then "true" else "false") ∧
    (∀ n, udpjson_node_to_string (JsonValue.jint n) = int64_repr n) ∧
    (∀ q, udpjson_node_to_string (JsonValue.jdouble q) = printf_f q) ∧
    (∀ members, udpjson_node_to_string (JsonValue.jobject members)
        = json_to_string (JsonValue.jobject members)) ∧
    (∀ items, udpjson_node_to_string (JsonValue.jarray items)
        = json_to_string (JsonValue.jarray items)) := by
  refine ⟨?_, fun s => rfl, fun b => rfl, fun n => rfl, fun q => rfl,
    fun m => rfl, fun i => rfl⟩
  rw [udpjson_parse_and_cache_accepted cfg cap c now obj oid_node val_node oid h1 h2 h3]
  exact udpjson_lookup_after_update cap c _ oid _ now later ttl hmono hrange hfresh

/-- Witness for claim C6 at a concrete datagram, cache and clock. -/
theorem claim_C6_witness :
    udpjson_cache_lookup
        (udpjson_parse_and_cache ⟨"value", "object_id", "source_id"⟩ 8 []
          (some (JsonValue.jobject
            [("object_id", JsonValue.jint 7), ("source_id", JsonValue.jint 2),
             ("value", JsonValue.jstring "hello")])) 1000)
        (udpjson_source_id64 ⟨"value", "object_id", "source_id"⟩
          [("object_id", JsonValue.jint 7), ("source_id", JsonValue.jint 2),
           ("value", JsonValue.jstring "hello")] % two32) 7 1500 1
      = some ⟨udpjson_node_to_string (JsonValue.jstring "hello"), 1000⟩ :=
  (claim_C6 ⟨"value", "object_id", "source_id"⟩ 8 []
    [("object_id", JsonValue.jint 7), ("source_id", JsonValue.jint 2),
     ("value", JsonValue.jstring "hello")]
    (JsonValue.jint 7) (JsonValue.jstring "hello") 7 1000 1500 1
    rfl rfl rfl (by decide) (by decide) (Or.inr (by decide))).1

/-- Claim C9: an accepted generic-path datagram is cached under the coerced
source id reduced modulo 2^32 (the key stores it as a 32-bit guint), so two
datagrams equal except for source ids congruent modulo 2^32 produce the same
cache write. -/
theorem claim_C9 (cfg : ExtractorConfig) (cap : Nat) (c : UdpJsonCache)
    (obj : JsonObject) (oid_node val_node src_node : JsonValue) (oid s64 now : Nat)
    (h1 : json_object_get_member obj cfg.object_id_key = some oid_node)
    (h2 : udpjson_parse_uint64 oid_node = some oid)
    (h3 : json_object_get_member obj cfg.json_key = some val_node)
    (h4 : json_object_get_member obj cfg.source_id_key = some src_node)
    (h5 : udpjson_parse_uint64 src_node = some s64) :
    udpjson_parse_and_cache cfg cap c (some (JsonValue.jobject obj)) now
      = udpjson_cache_update cap c (s64 % two32) oid
          (udpjson_node_to_string val_node) now ∧
    (∀ (obj2 : JsonObject) (src_node2 : JsonValue) (s64b : Nat),
      json_object_get_member obj2 cfg.object_id_key = some oid_node →
      json_object_get_member obj2 cfg.json_key = some val_node →
      json_object_get_member obj2 cfg.source_id_key = some src_node2 →
      udpjson_parse_uint64 src_node2 = some s64b →
      s64b % two32 = s64 % two32 →
      udpjson_parse_and_cache cfg cap c (some (JsonValue.jobject obj2)) now
        = udpjson_parse_and_cache cfg cap c (some (JsonValue.jobject obj)) now) := by
  have hmain : ∀ (o : JsonObject) (sn : JsonValue) (sv : Nat),
      json_object_get_member o cfg.object_id_key = some oid_node →
      json_object_get_member o cfg.json_key = some val_node →
      json_object_get_member o cfg.source_id_key = some sn →
      udpjson_parse_uint64 sn = some sv →
      udpjson_parse_and_cache cfg cap c (some (JsonValue.jobject o)) now
        = udpjson_cache_update cap c (sv % two32) oid
            (udpjson_node_to_string val_node) now := by
    intro o sn sv g1 g3 g4 g5
    rw [udpjson_parse_and_cache_accepted cfg cap c now o oid_node val_node oid g1 h2 g3]
    have hs : udpjson_source_id64 cfg o = sv := by
      simp only [udpjson_source_id64, g4, g5, Option.getD_some]
    rw [hs]
  refine ⟨hmain obj src_node s64 h1 h3 h4 h5, ?_⟩
  intro obj2 sn2 sv2 g1 g3 g4 g5 heq
  rw [hmain obj2 sn2 sv2 g1 g3 g4 g5, hmain obj src_node s64 h1 h3 h4 h5, heq]

/-- Witness for claim C9: source ids 1 and 1 + 2^32 produce the same write. -/
theorem claim_C9_witness :
    udpjson_parse_and_cache ⟨"value", "object_id", "source_id"⟩ 8 []
      (some (JsonValue.jobject
        [("object_id", JsonValue.jint 7), ("source_id", JsonValue.jint 4294967297),
         ("value", JsonValue.jstring "v")])) 3
    = udpjson_parse_and_cache ⟨"value", "object_id", "source_id"⟩ 8 []
      (some (JsonValue.jobject
        [("object_id", JsonValue.jint 7), ("source_id", JsonValue.jint 1),
         ("value", JsonValue.jstring "v")])) 3 :=
  (claim_C9 ⟨"value", "object_id", "source_id"⟩ 8 []
    [("object_id", JsonValue.jint 7), ("source_id", JsonValue.jint 1),
     ("value", JsonValue.jstring "v")]
    (JsonValue.jint 7) (JsonValue.jstring "v") (JsonValue.jint 1) 7 1 3
    rfl rfl rfl rfl rfl).2
    [("object_id", JsonValue.jint 7), ("source_id", JsonValue.jint 4294967297),
     ("value", JsonValue.jstring "v")]
    (JsonValue.jint 4294967297) 4294967297 rfl rfl rfl rfl (by decide)

/-- Claim C7 counterexample: on a well-formed object whose common-header
member is a present object and whose direct payload member 具体信息 is present
(but holds a non-object), the decoder returns failure and fires no callback —
although the claim's failure condition ("neither a direct payload field nor
any content-array item holding the payload field exists") does not hold, so
decode should have succeeded by the claim. -/
theorem claim_C7_counterexample :
    cuav_parser_parse ⟨true, true, true, true⟩
        (some (JsonValue.jobject
          [("公共内容", JsonValue.jobject []), ("具体信息", JsonValue.jint 1)])) 0
      = (false, []) ∧
    json_object_has_member
      [("公共内容", JsonValue.jobject []), ("具体信息", JsonValue.jint 1)] "具体信息" = true ∧
    cuav_locate_common
      [("公共内容", JsonValue.jobject []), ("具体信息", JsonValue.jint 1)] = some [] :=
  ⟨rfl, rfl, rfl⟩

/-- Claim C7 (amended): decode succeeds exactly when the input is a JSON
object whose common-header member holds an object and whose payload locates
to an object — where a present 具体信息 member must itself hold an object (a
non-object member fails without consulting `cont`), and the `cont` array is
searched only when 具体信息 is absent, skipping items whose payload member is
not an object; a failure fires no callback; a success with an unrecognized
msg_id fires only the raw callback (when registered). -/
theorem claim_C7 (cbs : CUAVCallbacks) (input : Option JsonValue) (ts : Nat) :
    ((cuav_parser_parse cbs input ts).1 = true ↔
      ∃ root_obj, input = some (JsonValue.jobject root_obj) ∧
        (cuav_locate_common root_obj).isSome = true ∧
        (cuav_locate_specific root_obj).isSome = true) ∧
    ((cuav_parser_parse cbs input ts).1 = false →
      (cuav_parser_parse cbs input ts).2 = []) ∧
    (∀ (root_obj common specific : JsonObject),
      input = some (JsonValue.jobject root_obj) →
      cuav_locate_common root_obj = some common →
      cuav_locate_specific root_obj = some specific →
      (cuav_parse_common_header common ts).msg_id ≠ CUAV_MSG_ID_GUIDANCE →
      (cuav_parse_common_header common ts).msg_id ≠ CUAV_MSG_ID_EO_SYSTEM →
      (cuav_parse_common_header common ts).msg_id ≠ CUAV_MSG_ID_EO_SERVO →
      cuav_parser_parse cbs input ts =
        (true,
         if cbs.raw then [CUAVEvent.raw (cuav_parse_common_header common ts) specific]
         else [])) := by
  refine ⟨?_, ?_, ?_⟩
  · cases input with
    | none => simp [cuav_parser_parse]
    | some root =>
      cases root with
      | jobject root_obj =>
        cases hc : cuav_locate_common root_obj with
        | none => simp [cuav_parser_parse, hc]
        | some common =>
          cases hs : cuav_locate_specific root_obj with
          | none => simp [cuav_parser_parse, hc, hs]
          | some specific =>
            simp only [cuav_parser_parse, hc, hs]
            constructor
            · intro _
              exact ⟨root_obj, rfl, by simp [hc], by simp [hs]⟩
            · intro _
              by_cases h1 : (cuav_parse_common_header common ts).msg_id = CUAV_MSG_ID_GUIDANCE
              · rw [if_pos h1]
              · rw [if_neg h1]
                by_cases h2 : (cuav_parse_common_header common ts).msg_id = CUAV_MSG_ID_EO_SYSTEM
                · rw [if_pos h2]
                · rw [if_neg h2]
                  by_cases h3 : (cuav_parse_common_header common ts).msg_id = CUAV_MSG_ID_EO_SERVO
                  · rw [if_pos h3]
                  · rw [if_neg h3]
      | jnull => simp [cuav_parser_parse]
      | jbool b => simp [cuav_parser_parse]
      | jint n => simp [cuav_parser_parse]
      | jdouble q => simp [cuav_parser_parse]
      | jstring s => simp [cuav_parser_parse]
      | jarray items => simp [cuav_parser_parse]
  · intro h
    cases input with
    | none => rfl
    | some root =>
      cases root with
      | jobject root_obj =>
        cases hc : cuav_locate_common root_obj with
        | none => simp [cuav_parser_parse, hc]
        | some common =>
          cases hs : cuav_locate_specific root_obj with
          | none => simp [cuav_parser_parse, hc, hs]
          | some specific =>
            simp only [cuav_parser_parse, hc, hs] at h ⊢
            by_cases h1 : (cuav_parse_common_header common ts).msg_id = CUAV_MSG_ID_GUIDANCE
            · rw [if_pos h1] at h
              simp at h
            · rw [if_neg h1] at h
              by_cases h2 : (cuav_parse_common_header common ts).msg_id = CUAV_MSG_ID_EO_SYSTEM
              · rw [if_pos h2] at h
                simp at h
              · rw [if_neg h2] at h
                by_cases h3 : (cuav_parse_common_header common ts).msg_id = CUAV_MSG_ID_EO_SERVO
                · rw [if_pos h3] at h
                  simp at h
                · rw [if_neg h3] at h
                  simp at h
      | jnull => rfl
      | jbool b => rfl
      | jint n => rfl
      | jdouble q => rfl
      | jstring s => rfl
      | jarray items => rfl
  · intro root_obj common specific hin hc hs h1 h2 h3
    subst hin
    simp only [cuav_parser_parse, hc, hs]
    rw [if_neg h1, if_neg h2, if_neg h3]

/-- Witness for claim C7: a well-formed message with an unrecognized msg_id
succeeds and fires only the raw callback. -/
theorem claim_C7_witness :
    cuav_parser_parse ⟨true, true, true, true⟩
        (some (JsonValue.jobject
          [("公共内容", JsonValue.jobject []), ("具体信息", JsonValue.jobject [])])) 0
      = (true, [CUAVEvent.raw (cuav_parse_common_header [] 0) []]) := by
  have h := (claim_C7 ⟨true, true, true, true⟩
    (some (JsonValue.jobject
      [("公共内容", JsonValue.jobject []), ("具体信息", JsonValue.jobject [])])) 0).2.2
    [("公共内容", JsonValue.jobject []), ("具体信息", JsonValue.jobject [])] [] []
    rfl rfl rfl (by decide) (by decide) (by decide)
  simpa using h

/-- A guint16 field supplied as an in-range JSON integer decodes to itself. -/
theorem cuav_field_u16_jint (o : JsonObject) (k : String) (n : Nat)
    (hm : json_object_get_member o k = some (JsonValue.jint (n : Int)))
    (hn : n < 65536) : cuav_field_u16 o k = n := by
  simp only [cuav_field_u16, cuav_parse_uint16, hm, Option.getD_some]
  split <;> omega

/-- A guint8 field supplied as an in-range JSON integer decodes to itself. -/
theorem cuav_field_u8_jint (o : JsonObject) (k : String) (n : Nat)
    (hm : json_object_get_member o k = some (JsonValue.jint (n : Int)))
    (hn : n < 256) : cuav_field_u8 o k = n := by
  simp only [cuav_field_u8, cuav_parse_uint8, cuav_parse_uint16, hm, Option.map,
    Option.getD_some]
  split <;> omega

/-- A guint32 field supplied as an in-range JSON integer decodes to itself. -/
theorem cuav_field_u32_jint (o : JsonObject) (k : String) (n : Nat)
    (hm : json_object_get_member o k = some (JsonValue.jint (n : Int)))
    (hn : n < two32) : cuav_field_u32 o k = n := by
  simp only [cuav_field_u32, cuav_parse_uint32, hm, Option.getD_some]
  have he : int64_to_uint64 (n : Int) = n := by
    simp only [int64_to_uint64, two64]
    simp only [two32] at hn
    omega
  rw [he]
  simp only [two32] at hn ⊢
  split <;> omega

/-- A gfloat field supplied as a JSON integer decodes to its exact rational
value. -/
theorem cuav_field_f_jint (o : JsonObject) (k : String) (m : Int)
    (hm : json_object_get_member o k = some (JsonValue.jint m)) :
    cuav_field_f o k = (m : ℚ) := by
  simp only [cuav_field_f, cuav_parse_float, cuav_parse_double, hm, Option.getD_some]

/-- A gdouble field supplied as a JSON double decodes to its value. -/
theorem cuav_field_d_jdouble (o : JsonObject) (k : String) (q : ℚ)
    (hm : json_object_get_member o k = some (JsonValue.jdouble q)) :
    cuav_field_d o k = q := by
  simp only [cuav_field_d, cuav_parse_double, hm, Option.getD_some]

/-- Claim C8: a well-formed message with header msg_id = 0x7111 and a
complete guidance payload (integer fields in range for their target widths,
float-target integers within the exactly-representable range of binary32)
invokes the registered guidance callback with every decoded field equal to
the corresponding input field, and then the registered raw callback with the
same header and the payload object — the typed callback strictly before the
raw callback, and nothing else. -/
theorem claim_C8 (cbs : CUAVCallbacks) (ts : Nat) (common : JsonObject)
    (yr mo dy h mn sec : Nat) (msec : Int) (tar_id tar_category guid_stat : Nat)
    (ecef_x ecef_y ecef_z ecef_vx ecef_vy ecef_vz : ℚ) (h_dvi v_dvi : Int)
    (enu_r enu_a enu_e enu_v enu_h lon lat alt : ℚ)
    (hg : cbs.guidance = true) (hr : cbs.raw = true)
    (hmsg : (cuav_parse_common_header common ts).msg_id = CUAV_MSG_ID_GUIDANCE)
    (hyr : yr < 65536) (hmo : mo < 256) (hdy : dy < 256) (hh : h < 256)
    (hmn : mn < 256) (hsec : sec < 256) (_hmsec : msec.natAbs ≤ 16777216)
    (htid : tar_id < two32) (htc : tar_category < 65536) (hgs : guid_stat < 256)
    (_hhd : h_dvi.natAbs ≤ 16777216) (_hvd : v_dvi.natAbs ≤ 16777216) :
    cuav_parser_parse cbs
        (some (JsonValue.jobject (mkCuavMessage common
          (mkGuidancePayload yr mo dy h mn sec msec tar_id tar_category guid_stat
            ecef_x ecef_y ecef_z ecef_vx ecef_vy ecef_vz h_dvi v_dvi
            enu_r enu_a enu_e enu_v enu_h lon lat alt)))) ts
      = (true,
         [CUAVEvent.guidance (cuav_parse_common_header common ts)
            ⟨yr, mo, dy, h, mn, sec, (msec : ℚ), tar_id, tar_category, guid_stat,
             ecef_x, ecef_y, ecef_z, ecef_vx, ecef_vy, ecef_vz,
             (h_dvi : ℚ), (v_dvi : ℚ), enu_r, enu_a, enu_e, enu_v, enu_h,
             lon, lat, alt⟩,
          CUAVEvent.raw (cuav_parse_common_header common ts)
            (mkGuidancePayload yr mo dy h mn sec msec tar_id tar_category guid_stat
              ecef_x ecef_y ecef_z ecef_vx ecef_vy ecef_vz h_dvi v_dvi
              enu_r enu_a enu_e enu_v enu_h lon lat alt)]) := by
  have hloc1 : cuav_locate_common (mkCuavMessage common
      (mkGuidancePayload yr mo dy h mn sec msec tar_id tar_category guid_stat
        ecef_x ecef_y ecef_z ecef_vx ecef_vy ecef_vz h_dvi v_dvi
        enu_r enu_a enu_e enu_v enu_h lon lat alt)) = some common := rfl
  have hloc2 : cuav_locate_specific (mkCuavMessage common
      (mkGuidancePayload yr mo dy h mn sec msec tar_id tar_category guid_stat
        ecef_x ecef_y ecef_z ecef_vx ecef_vy ecef_vz h_dvi v_dvi
        enu_r enu_a enu_e enu_v enu_h lon lat alt))
      = some (mkGuidancePayload yr mo dy h mn sec msec tar_id tar_category guid_stat
          ecef_x ecef_y ecef_z ecef_vx ecef_vy ecef_vz h_dvi v_dvi
          enu_r enu_a enu_e enu_v enu_h lon lat alt) := rfl
  have hpg : cuav_parse_guidance
      (mkGuidancePayload yr mo dy h mn sec msec tar_id tar_category guid_stat
        ecef_x ecef_y ecef_z ecef_vx ecef_vy ecef_vz h_dvi v_dvi
        enu_r enu_a enu_e enu_v enu_h lon lat alt)
      = ⟨yr, mo, dy, h, mn, sec, (msec : ℚ), tar_id, tar_category, guid_stat,
         ecef_x, ecef_y, ecef_z, ecef_vx, ecef_vy, ecef_vz,
         (h_dvi : ℚ), (v_dvi : ℚ), enu_r, enu_a, enu_e, enu_v, enu_h,
         lon, lat, alt⟩ := by
    unfold cuav_parse_guidance
    simp only [CUAVGuidanceInfo.mk.injEq]
    refine ⟨?_, ?_, ?_, ?_, ?_, ?_, ?_, ?_, ?_, ?_, ?_, ?_, ?_, ?_, ?_, ?_, ?_,
      ?_, ?_, ?_, ?_, ?_, ?_, ?_, ?_, ?_⟩
    · exact cuav_field_u16_jint _ "yr" yr rfl hyr
    · exact cuav_field_u8_jint _ "mo" mo rfl hmo
    · exact cuav_field_u8_jint _ "dy" dy rfl hdy
    · exact cuav_field_u8_jint _ "h" h rfl hh
    · exact cuav_field_u8_jint _ "min" mn rfl hmn
    · exact cuav_field_u8_jint _ "sec" sec rfl hsec
    · exact cuav_field_f_jint _ "msec" msec rfl
    · exact cuav_field_u32_jint _ "tar_id" tar_id rfl htid
    · exact cuav_field_u16_jint _ "tar_category" tar_category rfl htc
    · exact cuav_field_u8_jint _ "guid_stat" guid_stat rfl hgs
    · exact cuav_field_d_jdouble _ "ecef_x" ecef_x rfl
    · exact cuav_field_d_jdouble _ "ecef_y" ecef_y rfl
    · exact cuav_field_d_jdouble _ "ecef_z" ecef_z rfl
    · exact cuav_field_d_jdouble _ "ecef_vx" ecef_vx rfl
    · exact cuav_field_d_jdouble _ "ecef_vy" ecef_vy rfl
    · exact cuav_field_d_jdouble _ "ecef_vz" ecef_vz rfl
    · exact cuav_field_f_jint _ "h_dvi_pct" h_dvi rfl
    · exact cuav_field_f_jint _ "v_dvi_pct" v_dvi rfl
    · exact cuav_field_d_jdouble _ "enu_r" enu_r rfl
    · exact cuav_field_d_jdouble _ "enu_a" enu_a rfl
    · exact cuav_field_d_jdouble _ "enu_e" enu_e rfl
    · exact cuav_field_d_jdouble _ "enu_v" enu_v rfl
    · exact cuav_field_d_jdouble _ "enu_h" enu_h rfl
    · exact cuav_field_d_jdouble _ "lon" lon rfl
    · exact cuav_field_d_jdouble _ "lat" lat rfl
    · exact cuav_field_d_jdouble _ "alt" alt rfl
  simp only [cuav_parser_parse, hloc1, hloc2]
  rw [if_pos hmsg, hpg]
  simp [hg, hr]

/-- Witness for claim C8 at a fully concrete guidance message. -/
theorem claim_C8_witness :
    cuav_parser_parse ⟨true, true, true, true⟩
        (some (JsonValue.jobject (mkCuavMessage [("msg_id", JsonValue.jint 28945)]
          (mkGuidancePayload 2025 10 11 1 2 3 4 77 9 1
            1 2 3 4 5 6 5 (-6) 7 8 9 10 11 116 39 5000)))) 5
      = (true,
         [CUAVEvent.guidance (cuav_parse_common_header [("msg_id", JsonValue.jint 28945)] 5)
            ⟨2025, 10, 11, 1, 2, 3, ((4 : Int) : ℚ), 77, 9, 1,
             1, 2, 3, 4, 5, 6, ((5 : Int) : ℚ), (((-6) : Int) : ℚ),
             7, 8, 9, 10, 11, 116, 39, 5000⟩,
          CUAVEvent.raw (cuav_parse_common_header [("msg_id", JsonValue.jint 28945)] 5)
            (mkGuidancePayload 2025 10 11 1 2 3 4 77 9 1
              1 2 3 4 5 6 5 (-6) 7 8 9 10 11 116 39 5000)]) :=
  claim_C8 ⟨true, true, true, true⟩ 5 [("msg_id", JsonValue.jint 28945)]
    2025 10 11 1 2 3 4 77 9 1 1 2 3 4 5 6 5 (-6) 7 8 9 10 11 116 39 5000
    rfl rfl (by decide) (by decide) (by decide) (by decide) (by decide)
    (by decide) (by decide) (by decide) (by decide) (by decide) (by decide)
    (by decide) (by decide)
